import Mathlib

/-!
Verification of the simpleperf ETM profcollect wrapper
(`simpleperf/rust/lib.rs`).

The module is a boundary-safety facade: it converts high-level requests
(scope, duration, binary filter, file paths) into the null-terminated
byte-buffer encoding expected by the native tracing engine, and forwards
capability probes. We embed the module shallowly:

* Platform paths and Rust strings are byte sequences (`List Nat`, each
  entry a byte value).
* A Rust panic (an `unwrap` failure) is modelled as `Option.none`; a
  completed native call is `Option.some` of a record of the exact
  arguments crossing the boundary.
* `Path::to_str` succeeds exactly on valid UTF-8 byte sequences, so we
  model the standard library's UTF-8 validation (`validUtf8`, the byte
  patterns of RFC 3629 as checked by `core::str`).
* `Duration::as_secs_f32` is modelled by its exact rational value
  `secs + nanos / 10^9`; the `f32` the code produces is the binary32
  rounding of that value, which is the identity whenever the value
  satisfies `repF32`.
-/

namespace Simpleperf

/-- UTF-8 continuation byte: `0x80 ≤ b ≤ 0xBF`. -/
def contB (b : Nat) : Bool := 128 ≤ b && b ≤ 191

/-- Valid UTF-8 byte sequences, as validated by Rust `core::str` (RFC 3629):
models the success condition of `Path::to_str`. -/
def validUtf8 : List Nat → Bool
  | [] => true
  | b :: rest =>
    if b ≤ 127 then validUtf8 rest
    else if 194 ≤ b && b ≤ 223 then
      match rest with
      | c1 :: r => contB c1 && validUtf8 r
      | [] => false
    else if b = 224 then
      match rest with
      | c1 :: c2 :: r => (160 ≤ c1 && c1 ≤ 191) && contB c2 && validUtf8 r
      | _ => false
    else if 225 ≤ b && b ≤ 236 then
      match rest with
      | c1 :: c2 :: r => contB c1 && contB c2 && validUtf8 r
      | _ => false
    else if b = 237 then
      match rest with
      | c1 :: c2 :: r => (128 ≤ c1 && c1 ≤ 159) && contB c2 && validUtf8 r
      | _ => false
    else if 238 ≤ b && b ≤ 239 then
      match rest with
      | c1 :: c2 :: r => contB c1 && contB c2 && validUtf8 r
      | _ => false
    else if b = 240 then
      match rest with
      | c1 :: c2 :: c3 :: r => (144 ≤ c1 && c1 ≤ 191) && contB c2 && contB c3 && validUtf8 r
      | _ => false
    else if 241 ≤ b && b ≤ 243 then
      match rest with
      | c1 :: c2 :: c3 :: r => contB c1 && contB c2 && contB c3 && validUtf8 r
      | _ => false
    else if b = 244 then
      match rest with
      | c1 :: c2 :: c3 :: r => (128 ≤ c1 && c1 ≤ 143) && contB c2 && contB c3 && validUtf8 r
      | _ => false
    else false

/-- Byte content of an ASCII string literal (for ASCII text, UTF-8 bytes
coincide with the code points). -/
def strBytes (s : String) : List Nat := s.data.map Char.toNat

/-- Rust `CString`: an owned byte buffer with no interior null byte.
`bytes` is the content without the terminator; `withNul` below is what the
`as_ptr` pointer exposes across the boundary. -/
structure CString where
  bytes : List Nat
deriving DecidableEq, Repr

/-- Rust `CString::new`: fails (the caller's `unwrap` panics) exactly when
the input contains an embedded null byte. -/
def CString.new (s : List Nat) : Option CString :=
  if 0 ∈ s then none else some ⟨s⟩

/-- Byte sequence exposed across the FFI boundary: content plus exactly one
trailing null terminator. -/
def CString.withNul (c : CString) : List Nat := c.bytes ++ [0]

/-- Embedding of `path_to_cstr`: `CString::new(path.to_str().unwrap()).unwrap()`.
Panics (returns `none`) when the path bytes are not valid UTF-8 or contain an
embedded null byte. -/
def path_to_cstr (path : List Nat) : Option CString :=
  if validUtf8 path then CString.new path else none

/-- ETM recording scope (`pub enum RecordScope`). -/
inductive RecordScope where
  | USERSPACE : RecordScope
  | KERNEL : RecordScope
  | BOTH : RecordScope
deriving DecidableEq, Repr

/-- Byte content of the event-name literal for userspace tracing. -/
def csEtmU : List Nat := strBytes "cs-etm:u"

/-- Byte content of the event-name literal for kernel tracing. -/
def csEtmK : List Nat := strBytes "cs-etm:k"

/-- Byte content of the event-name literal for combined tracing. -/
def csEtm : List Nat := strBytes "cs-etm"

/-- Rust `std::time::Duration`: a non-negative span of whole seconds plus
a sub-second nanosecond part below `10^9`. -/
structure Duration where
  secs : Nat
  nanos : Nat
  nanos_lt : nanos < 1000000000

/-- Exact value of `Duration::as_secs_f32`, namely
`(secs as f32) + (nanos as f32) / (10^9 as f32)` taken over the rationals.
The `f32` crossing the boundary is the binary32 rounding of this value,
which is the identity whenever `repF32` holds of it. -/
def Duration.as_secs_f32 (d : Duration) : ℚ :=
  (d.secs : ℚ) + (d.nanos : ℚ) / 1000000000

/-- A rational exactly representable as an IEEE-754 binary32 value:
a significand below `2^24` scaled by a power of two within the binary32
exponent range (down to the smallest subnormal `2^(-149)`). -/
def repF32 (q : ℚ) : Prop :=
  ∃ m : ℤ, ∃ e : ℤ, m.natAbs < 2 ^ 24 ∧ -149 ≤ e ∧ e ≤ 104 ∧ q = (m : ℚ) * 2 ^ e

/-- Argument tuple delivered to the native `Record` operation, in boundary
encoding and declaration order: event name, trace file path and binary filter
as null-terminated byte buffers, and the duration in fractional seconds. -/
structure RecordCall where
  event_name : List Nat
  trace_file : List Nat
  duration_seconds : ℚ
  binary_filter : List Nat
deriving DecidableEq, Repr

/-- Embedding of `record`: converts the scope to its event-name `CString`,
the trace path via `path_to_cstr`, the duration via `as_secs_f32` and the
filter via `CString::new`, then performs the native call with exactly those
arguments. Any conversion failure is a panic (`none`) and no native call
occurs. Conversions appear in source order. -/
def record (trace_file : List Nat) (duration : Duration) (binary_filter : List Nat)
    (scope : RecordScope) : Option RecordCall :=
  match (match scope with
         | RecordScope.USERSPACE => CString.new csEtmU
         | RecordScope.KERNEL => CString.new csEtmK
         | RecordScope.BOTH => CString.new csEtm) with
  | none => none
  | some event_name =>
    match path_to_cstr trace_file with
    | none => none
    | some tf =>
      match CString.new binary_filter with
      | none => none
      | some bf =>
        some ⟨event_name.withNul, tf.withNul, duration.as_secs_f32, bf.withNul⟩

/-- Argument tuple delivered to the native `Inject` operation: three
null-terminated byte buffers in declaration order. -/
structure ProcessCall where
  trace_path : List Nat
  profile_path : List Nat
  binary_filter : List Nat
deriving DecidableEq, Repr

/-- Embedding of `process`: converts both paths via `path_to_cstr` and the
filter via `CString::new` (in source order), then performs the native
`Inject` call with exactly those arguments; any conversion failure is a
panic (`none`) and no native call occurs. -/
def process (trace_path : List Nat) (profile_path : List Nat)
    (binary_filter : List Nat) : Option ProcessCall :=
  match path_to_cstr trace_path with
  | none => none
  | some tp =>
    match path_to_cstr profile_path with
    | none => none
    | some pp =>
      match CString.new binary_filter with
      | none => none
      | some bf => some ⟨tp.withNul, pp.withNul, bf.withNul⟩

/-- Observable state of the native engine's capability probes. The two
wrappers below are pure reads of it: they take no other input, change
nothing, and always return a boolean. -/
structure NativeEnv where
  driverSupport : Bool
  deviceSupport : Bool
deriving DecidableEq, Repr

/-- Embedding of `has_driver_support`: forwards the native
`HasDriverSupport` probe result unchanged. Total (never fails) and
effect-free: the environment is only read. -/
def has_driver_support (env : NativeEnv) : Bool := env.driverSupport

/-- Embedding of `has_device_support`: forwards the native
`HasDeviceSupport` probe result unchanged. Total (never fails) and
effect-free: the environment is only read. -/
def has_device_support (env : NativeEnv) : Bool := env.deviceSupport

/-- Logging redirection state of the native engine: diagnostic output goes
either to the default destination or to a redirection target. -/
inductive LogState where
  | Default : LogState
  | RedirectedTo : List Nat → LogState
deriving DecidableEq, Repr

/-- Modelled from the spec: the native engine's `SetLogFile` transition,
which is not part of this repository. From any state it moves to
`RedirectedTo` the given target, replacing any previous redirection. -/
def nativeSetLogFile (p : List Nat) (s : LogState) : LogState :=
  match s with
  | _ => LogState.RedirectedTo p

/-- Modelled from the spec: the native engine's `ResetLogFile` transition,
which is not part of this repository. From any state it reverts to the
`Default` destination (a no-op when already there). -/
def nativeResetLogFile (s : LogState) : LogState :=
  match s with
  | _ => LogState.Default

/-- Embedding of `set_log_file`: converts the path via `path_to_cstr`
(panicking, i.e. `none`, on invalid UTF-8 or an embedded null byte), then
issues the native `SetLogFile` transition with the converted buffer. -/
def set_log_file (filename : List Nat) (s : LogState) : Option LogState :=
  match path_to_cstr filename with
  | none => none
  | some log_file => some (nativeSetLogFile log_file.withNul s)

/-- Embedding of `reset_log_file`: unconditionally issues the native
`ResetLogFile` transition; it takes no input and cannot fail. -/
def reset_log_file (s : LogState) : LogState := nativeResetLogFile s

/-! Helper lemmas about the conversion layer. -/

lemma CString.new_of_not_mem {s : List Nat} (h : 0 ∉ s) : CString.new s = some ⟨s⟩ := by
  simp [CString.new, h]

lemma CString.new_of_mem {s : List Nat} (h : 0 ∈ s) : CString.new s = none := by
  simp [CString.new, h]

lemma path_to_cstr_of_valid {p : List Nat} (h1 : validUtf8 p = true) (h2 : 0 ∉ p) :
    path_to_cstr p = some ⟨p⟩ := by
  simp [path_to_cstr, h1, CString.new, h2]

lemma path_to_cstr_none_of_mem {p : List Nat} (h : 0 ∈ p) : path_to_cstr p = none := by
  unfold path_to_cstr
  split
  · exact CString.new_of_mem h
  · rfl

lemma path_to_cstr_none_of_invalid {p : List Nat} (h : validUtf8 p = false) :
    path_to_cstr p = none := by
  simp [path_to_cstr, h]

lemma path_to_cstr_some_bytes {p : List Nat} {c : CString} (h : path_to_cstr p = some c) :
    c = ⟨p⟩ := by
  unfold path_to_cstr CString.new at h
  split at h
  · split at h
    · exact Option.noConfusion h
    · exact (Option.some.inj h).symm
  · exact Option.noConfusion h

lemma CString.new_some_bytes {s : List Nat} {c : CString} (h : CString.new s = some c) :
    c = ⟨s⟩ := by
  unfold CString.new at h
  split at h
  · exact Option.noConfusion h
  · exact (Option.some.inj h).symm

lemma zero_not_mem_csEtmU : 0 ∉ csEtmU := by decide

lemma zero_not_mem_csEtmK : 0 ∉ csEtmK := by decide

lemma zero_not_mem_csEtm : 0 ∉ csEtm := by decide

/-- On valid inputs, `record` reaches the native boundary with exactly the
converted arguments. -/
lemma record_of_valid {p bf : List Nat} (d : Duration) (sc : RecordScope)
    (hp1 : validUtf8 p = true) (hp2 : 0 ∉ p) (hbf : 0 ∉ bf) :
    record p d bf sc =
      some ⟨(match sc with
             | RecordScope.USERSPACE => csEtmU
             | RecordScope.KERNEL => csEtmK
             | RecordScope.BOTH => csEtm) ++ [0],
        p ++ [0], d.as_secs_f32, bf ++ [0]⟩ := by
  cases sc <;>
    simp [record, path_to_cstr_of_valid hp1 hp2, CString.new_of_not_mem hbf,
      CString.new_of_not_mem zero_not_mem_csEtmU, CString.new_of_not_mem zero_not_mem_csEtmK,
      CString.new_of_not_mem zero_not_mem_csEtm, CString.withNul]

/-- On valid inputs, `process` reaches the native boundary with exactly the
converted arguments. -/
lemma process_of_valid {p q bf : List Nat}
    (hp1 : validUtf8 p = true) (hp2 : 0 ∉ p) (hq1 : validUtf8 q = true) (hq2 : 0 ∉ q)
    (hbf : 0 ∉ bf) :
    process p q bf = some ⟨p ++ [0], q ++ [0], bf ++ [0]⟩ := by
  simp [process, path_to_cstr_of_valid hp1 hp2, path_to_cstr_of_valid hq1 hq2,
    CString.new_of_not_mem hbf, CString.withNul]

/-- Inversion for a completed `record` call: all four boundary arguments are
determined by the inputs. -/
lemma record_some_inv {p bf : List Nat} {d : Duration} {sc : RecordScope} {r : RecordCall}
    (h : record p d bf sc = some r) :
    r.event_name = (match sc with
      | RecordScope.USERSPACE => csEtmU
      | RecordScope.KERNEL => csEtmK
      | RecordScope.BOTH => csEtm) ++ [0] ∧
    r.trace_file = p ++ [0] ∧ r.duration_seconds = d.as_secs_f32 ∧
    r.binary_filter = bf ++ [0] := by
  cases sc <;>
  · simp only [record] at h
    first
    | rw [CString.new_of_not_mem zero_not_mem_csEtmU] at h
    | rw [CString.new_of_not_mem zero_not_mem_csEtmK] at h
    | rw [CString.new_of_not_mem zero_not_mem_csEtm] at h
    cases hp : path_to_cstr p <;> rw [hp] at h
    · exact Option.noConfusion h
    · cases hbf : CString.new bf <;> rw [hbf] at h
      · exact Option.noConfusion h
      · obtain rfl := path_to_cstr_some_bytes hp
        obtain rfl := CString.new_some_bytes hbf
        cases Option.some.inj h
        exact ⟨rfl, rfl, rfl, rfl⟩

/-! Claim theorems. -/

/-- C1: every `record` call that reaches the native boundary carries exactly
one of the three fixed event-name strings, in the exact 1:1 mapping
USERSPACE → "cs-etm:u", KERNEL → "cs-etm:k", BOTH → "cs-etm" (each followed
by the null terminator); exhaustiveness of the disjunction over all calls
shows no other event-name value is ever produced. -/
theorem record_event_name_exact (p : List Nat) (d : Duration) (bf : List Nat)
    (sc : RecordScope) (r : RecordCall) (h : record p d bf sc = some r) :
    (sc = RecordScope.USERSPACE ∧ r.event_name = strBytes "cs-etm:u" ++ [0]) ∨
    (sc = RecordScope.KERNEL ∧ r.event_name = strBytes "cs-etm:k" ++ [0]) ∨
    (sc = RecordScope.BOTH ∧ r.event_name = strBytes "cs-etm" ++ [0]) := by
  have hinv := record_some_inv h
  cases sc
  · exact Or.inl ⟨rfl, hinv.1⟩
  · exact Or.inr (Or.inl ⟨rfl, hinv.1⟩)
  · exact Or.inr (Or.inr ⟨rfl, hinv.1⟩)

/-- Witness for C1: a concrete completed call with scope BOTH. -/
theorem record_event_name_exact_witness :
    (RecordScope.BOTH = RecordScope.USERSPACE ∧
      (RecordCall.mk (csEtm ++ [0]) (strBytes "/tmp/a" ++ [0])
        (Duration.as_secs_f32 ⟨1, 0, by norm_num⟩) [0]).event_name =
        strBytes "cs-etm:u" ++ [0]) ∨
    (RecordScope.BOTH = RecordScope.KERNEL ∧
      (RecordCall.mk (csEtm ++ [0]) (strBytes "/tmp/a" ++ [0])
        (Duration.as_secs_f32 ⟨1, 0, by norm_num⟩) [0]).event_name =
        strBytes "cs-etm:k" ++ [0]) ∨
    (RecordScope.BOTH = RecordScope.BOTH ∧
      (RecordCall.mk (csEtm ++ [0]) (strBytes "/tmp/a" ++ [0])
        (Duration.as_secs_f32 ⟨1, 0, by norm_num⟩) [0]).event_name =
        strBytes "cs-etm" ++ [0]) :=
  record_event_name_exact (strBytes "/tmp/a") ⟨1, 0, by norm_num⟩ [] RecordScope.BOTH _ rfl

/-- C2: any embedded null byte in a path or filter argument of `record`,
`process` or `set_log_file` makes the call panic during argument
construction (`none`), so the native engine is never invoked with a
partially-converted argument set. -/
theorem null_byte_aborts (p q bf : List Nat) (d : Duration) (sc : RecordScope)
    (st : LogState) :
    (0 ∈ p ∨ 0 ∈ bf → record p d bf sc = none) ∧
    (0 ∈ p ∨ 0 ∈ q ∨ 0 ∈ bf → process p q bf = none) ∧
    (0 ∈ p → set_log_file p st = none) := by
  refine ⟨?_, ?_, ?_⟩
  · rintro (h | h)
    · cases sc <;>
        simp [record, path_to_cstr_none_of_mem h,
          CString.new_of_not_mem zero_not_mem_csEtmU,
          CString.new_of_not_mem zero_not_mem_csEtmK,
          CString.new_of_not_mem zero_not_mem_csEtm]
    · cases hp : path_to_cstr p <;> cases sc <;>
        simp [record, hp, CString.new_of_mem h,
          CString.new_of_not_mem zero_not_mem_csEtmU,
          CString.new_of_not_mem zero_not_mem_csEtmK,
          CString.new_of_not_mem zero_not_mem_csEtm]
  · rintro (h | h | h)
    · simp [process, path_to_cstr_none_of_mem h]
    · cases hp : path_to_cstr p <;> simp [process, hp, path_to_cstr_none_of_mem h]
    · cases hp : path_to_cstr p <;> cases hq : path_to_cstr q <;>
        simp [process, hp, hq, CString.new_of_mem h]
  · intro h
    simp [set_log_file, path_to_cstr_none_of_mem h]

/-- Witness for C2: the path `[0]` and filter `[0]` abort all three calls. -/
theorem null_byte_aborts_witness :
    record [0] ⟨0, 0, by norm_num⟩ [] RecordScope.BOTH = none ∧
    process [0] [0] [] = none ∧
    set_log_file [0] LogState.Default = none := by
  obtain ⟨h1, h2, h3⟩ :=
    null_byte_aborts [0] [0] [] ⟨0, 0, by norm_num⟩ RecordScope.BOTH LogState.Default
  exact ⟨h1 (Or.inl (by decide)), h2 (Or.inl (by decide)), h3 (by decide)⟩

/-- C3: for null-byte-free (UTF-8) path and filter strings, `record` and
`process` deliver each string across the boundary as exactly the input byte
content plus one trailing null terminator — no truncation, no reencoding. -/
theorem boundary_bytes_preserved (p q bf : List Nat) (d : Duration) (sc : RecordScope)
    (hp1 : validUtf8 p = true) (hp2 : 0 ∉ p) (hq1 : validUtf8 q = true) (hq2 : 0 ∉ q)
    (hbf : 0 ∉ bf) :
    (∃ r, record p d bf sc = some r ∧ r.trace_file = p ++ [0] ∧
      r.binary_filter = bf ++ [0]) ∧
    (∃ c, process p q bf = some c ∧ c.trace_path = p ++ [0] ∧
      c.profile_path = q ++ [0] ∧ c.binary_filter = bf ++ [0]) :=
  ⟨⟨_, record_of_valid d sc hp1 hp2 hbf, rfl, rfl⟩,
    ⟨_, process_of_valid hp1 hp2 hq1 hq2 hbf, rfl, rfl, rfl⟩⟩

/-- Witness for C3: concrete paths and the filter "libfoo.so". -/
theorem boundary_bytes_preserved_witness :
    (∃ r, record (strBytes "/tmp/t") ⟨1, 0, by norm_num⟩ (strBytes "libfoo.so")
        RecordScope.KERNEL = some r ∧
      r.trace_file = strBytes "/tmp/t" ++ [0] ∧
      r.binary_filter = strBytes "libfoo.so" ++ [0]) ∧
    (∃ c, process (strBytes "/tmp/t") (strBytes "/tmp/p") (strBytes "libfoo.so") = some c ∧
      c.trace_path = strBytes "/tmp/t" ++ [0] ∧
      c.profile_path = strBytes "/tmp/p" ++ [0] ∧
      c.binary_filter = strBytes "libfoo.so" ++ [0]) :=
  boundary_bytes_preserved (strBytes "/tmp/t") (strBytes "/tmp/p") (strBytes "libfoo.so")
    ⟨1, 0, by norm_num⟩ RecordScope.KERNEL
    (by decide) (by decide) (by decide) (by decide) (by decide)

/-- C4: the scenario record("/tmp/trace.bin", 5 s, "", BOTH) delivers to the
native `Record` operation, in boundary encoding and order, the event name
"cs-etm", the path "/tmp/trace.bin" null-terminated, duration 5.0 (exactly
representable in binary32), and an empty null-terminated filter. -/
theorem record_scenario_both :
    record (strBytes "/tmp/trace.bin") ⟨5, 0, by norm_num⟩ [] RecordScope.BOTH =
      some ⟨strBytes "cs-etm" ++ [0], strBytes "/tmp/trace.bin" ++ [0], 5, [0]⟩ ∧
    repF32 5 := by
  constructor
  · rw [show record (strBytes "/tmp/trace.bin") ⟨5, 0, by norm_num⟩ [] RecordScope.BOTH =
      some ⟨csEtm ++ [0], strBytes "/tmp/trace.bin" ++ [0],
        Duration.as_secs_f32 ⟨5, 0, by norm_num⟩, [0]⟩ from rfl]
    norm_num [Duration.as_secs_f32, csEtm]
  · exact ⟨5, 0, by norm_num, by norm_num, by norm_num, by norm_num⟩

/-- C5: `record` converts its duration through `Duration::as_secs_f32`; a
duration of exactly 2.5 seconds (2 s + 500000000 ns) has exact value 5/2,
and 5/2 is exactly representable in binary32, so the 32-bit float crossing
the boundary is exactly 2.5. -/
theorem duration_two_point_five_exact :
    Duration.as_secs_f32 ⟨2, 500000000, by norm_num⟩ = 5 / 2 ∧ repF32 (5 / 2) := by
  constructor
  · norm_num [Duration.as_secs_f32]
  · exact ⟨5, -1, by norm_num, by norm_num, by norm_num, by norm_num⟩

/-- C6: the two capability wrappers take no input beyond the native
environment, return exactly the corresponding native probe's boolean, are
total (never fail), and only read the environment. -/
theorem capability_probes_forward (env : NativeEnv) :
    has_driver_support env = env.driverSupport ∧
    has_device_support env = env.deviceSupport :=
  ⟨rfl, rfl⟩

/-- C7: from any logging state, set_log_file(A) then set_log_file(B) then
reset_log_file ends in the Default logging state. -/
theorem set_set_reset_default (st st1 st2 : LogState) (A B : List Nat)
    (h1 : set_log_file A st = some st1) (h2 : set_log_file B st1 = some st2) :
    reset_log_file st2 = LogState.Default := rfl

/-- Witness for C7: the sequence on concrete paths "/a" then "/b". -/
theorem set_set_reset_default_witness :
    reset_log_file (LogState.RedirectedTo (strBytes "/b" ++ [0])) = LogState.Default :=
  set_set_reset_default LogState.Default
    (LogState.RedirectedTo (strBytes "/a" ++ [0]))
    (LogState.RedirectedTo (strBytes "/b" ++ [0]))
    (strBytes "/a") (strBytes "/b") (by decide) (by decide)

/-- C8: `reset_log_file` from the Default state is a harmless no-op: it is a
total function (never fails) and leaves the logging state Default. -/
theorem reset_log_file_noop : reset_log_file LogState.Default = LogState.Default := rfl

/-- C9: a path argument that is not valid UTF-8 makes `record`, `process`
(in either path position) and `set_log_file` panic during path conversion
(`none`) before any native boundary call — strictly stronger than the
null-byte-only precondition, since such a path need not contain a null
byte. -/
theorem non_utf8_path_aborts (p q bf : List Nat) (d : Duration) (sc : RecordScope)
    (st : LogState) (h : validUtf8 p = false) :
    record p d bf sc = none ∧ process p q bf = none ∧ process q p bf = none ∧
      set_log_file p st = none := by
  refine ⟨?_, ?_, ?_, ?_⟩
  · cases sc <;>
      simp [record, path_to_cstr_none_of_invalid h,
        CString.new_of_not_mem zero_not_mem_csEtmU,
        CString.new_of_not_mem zero_not_mem_csEtmK,
        CString.new_of_not_mem zero_not_mem_csEtm]
  · simp [process, path_to_cstr_none_of_invalid h]
  · cases hq : path_to_cstr q <;> simp [process, hq, path_to_cstr_none_of_invalid h]
  · simp [set_log_file, path_to_cstr_none_of_invalid h]

/-- Witness for C9: the byte `0xFF` is null-byte-free yet not valid UTF-8,
and aborts all the calls. -/
theorem non_utf8_path_aborts_witness :
    record [255] ⟨0, 0, by norm_num⟩ [] RecordScope.USERSPACE = none ∧
    process [255] [97] [] = none ∧ process [97] [255] [] = none ∧
    set_log_file [255] LogState.Default = none :=
  non_utf8_path_aborts [255] [97] [] ⟨0, 0, by norm_num⟩ RecordScope.USERSPACE
    LogState.Default (by decide)

/-- C10: the duration type admits only non-negative spans (whole seconds and
sub-second nanoseconds are naturals), so the fractional-seconds value of
every `Duration` is ≥ 0, and every completed `record` call crosses the
boundary with a non-negative duration; the spec's undefined negative-duration
case cannot arise. -/
theorem duration_nonneg :
    (∀ d : Duration, 0 ≤ d.as_secs_f32) ∧
    (∀ (p bf : List Nat) (d : Duration) (sc : RecordScope) (r : RecordCall),
      record p d bf sc = some r → 0 ≤ r.duration_seconds) := by
  have hd : ∀ d : Duration, 0 ≤ d.as_secs_f32 := by
    intro d
    unfold Duration.as_secs_f32
    positivity
  refine ⟨hd, ?_⟩
  intro p bf d sc r h
  rw [(record_some_inv h).2.2.1]
  exact hd d

/-- Witness for C10: a concrete completed call has non-negative duration. -/
theorem duration_nonneg_witness :
    0 ≤ Duration.as_secs_f32 ⟨0, 0, by norm_num⟩ :=
  duration_nonneg.2 (strBytes "/a") [] ⟨0, 0, by norm_num⟩ RecordScope.BOTH
    ⟨csEtm ++ [0], strBytes "/a" ++ [0], Duration.as_secs_f32 ⟨0, 0, by norm_num⟩, [0]⟩ rfl

end Simpleperf
